import Mathlib

/-!
Shallow embedding of the route-fetch admission controller, supersession
logic, tap state machine, polyline densification and display formatting of
the Rescuemind maps screen.  The repository holds two variants of the same
component: variant 1 guards fetches by a minimum spacing interval and a
quota safety limit; variant 2 drops the spacing check and instead aborts a
superseded in-flight request through an abort controller.  JavaScript
numbers are modelled as rationals, timestamps as integers, machine state as
explicit records threaded through the step functions.
-/

namespace RescueMind

/-- Geographic coordinate as stored in component state. -/
structure Coordinate where
  latitude : ℚ
  longitude : ℚ
deriving DecidableEq

/-- DAILY_QUOTA constant from the source. -/
def DAILY_QUOTA : Nat := 2000

/-- SAFETY_LIMIT is the floor of DAILY_QUOTA times 0.75 (0.75 is exact). -/
def SAFETY_LIMIT : Nat := (⌊(DAILY_QUOTA : ℚ) * (75 / 100)⌋).toNat

/-- REQUEST_INTERVAL_MS constant from variant 1 of the source. -/
def REQUEST_INTERVAL_MS : Int := 15000

/-- JavaScript truthiness of the ORS_API_KEY guard: the key is missing when
the environment variable is undefined or the empty string. -/
def keyMissing : Option String → Bool
  | none => true
  | some s => s == ""

/-- Outcome of one call to fetchRouteFromPoints, identified by which early
return (if any) the call took. -/
inductive FetchOutcome
  | missingCredential
  | rejectedTooSoon
  | rejectedQuotaExceeded
  | issued
deriving DecidableEq

/-- Quota bookkeeping of variant 1: requestCountRef and lastRequestTimeRef. -/
structure QuotaV1 where
  requestCount : Nat
  lastRequestTime : Int
deriving DecidableEq

/-- Selection and route-artifact state shared by both variants: startPoint,
endPoint, routeCoords, distance, duration. -/
structure SelectionState where
  startPoint : Option Coordinate
  endPoint : Option Coordinate
  routeCoords : List Coordinate
  distance : Option String
  duration : Option String
deriving DecidableEq

/-- Synchronous admission part of variant 1's fetchRouteFromPoints: key
check, then spacing check, then quota check, then bookkeeping and the
single axios call (counted in the last component).  The selection state is
returned untouched because no early-return path of the source writes it. -/
def fetchRouteFromPointsV1 (apiKey : Option String) (disableQuotaGuard : Bool)
    (q : QuotaV1) (sel : SelectionState) (now : Int)
    (startLat startLng endLat endLng : ℚ) :
    FetchOutcome × QuotaV1 × SelectionState × Nat :=
  if keyMissing apiKey then
    (FetchOutcome.missingCredential, q, sel, 0)
  else if now - q.lastRequestTime < REQUEST_INTERVAL_MS then
    (FetchOutcome.rejectedTooSoon, q, sel, 0)
  else if disableQuotaGuard = false ∧ SAFETY_LIMIT ≤ q.requestCount then
    (FetchOutcome.rejectedQuotaExceeded, q, sel, 0)
  else
    (FetchOutcome.issued,
      { requestCount := q.requestCount + 1, lastRequestTime := now }, sel, 1)

/-- One invocation of variant 1's fetchRouteFromPoints as seen by a trace:
its timestamp and the four coordinate arguments. -/
structure CallV1 where
  now : Int
  startLat : ℚ
  startLng : ℚ
  endLat : ℚ
  endLng : ℚ
deriving DecidableEq

/-- Run a sequence of variant-1 calls, threading the quota state, and
record each call's timestamp with its outcome. -/
def runV1 (apiKey : Option String) (disableQuotaGuard : Bool)
    (q : QuotaV1) (sel : SelectionState) :
    List CallV1 → List (Int × FetchOutcome)
  | [] => []
  | c :: rest =>
    let r := fetchRouteFromPointsV1 apiKey disableQuotaGuard q sel c.now
      c.startLat c.startLng c.endLat c.endLng
    (c.now, r.1) :: runV1 apiKey disableQuotaGuard r.2.1 r.2.2.1 rest

/-- Timestamps of the admitted (fetch-issuing) calls of a variant-1 call
sequence, threading the quota state exactly as runV1 does. -/
def admittedTimesV1 (apiKey : Option String) (disableQuotaGuard : Bool)
    (q : QuotaV1) (sel : SelectionState) : List CallV1 → List Int
  | [] => []
  | c :: rest =>
    if (fetchRouteFromPointsV1 apiKey disableQuotaGuard q sel c.now
        c.startLat c.startLng c.endLat c.endLng).1 = FetchOutcome.issued then
      c.now :: admittedTimesV1 apiKey disableQuotaGuard
        (fetchRouteFromPointsV1 apiKey disableQuotaGuard q sel c.now
          c.startLat c.startLng c.endLat c.endLng).2.1
        (fetchRouteFromPointsV1 apiKey disableQuotaGuard q sel c.now
          c.startLat c.startLng c.endLat c.endLng).2.2.1 rest
    else
      admittedTimesV1 apiKey disableQuotaGuard
        (fetchRouteFromPointsV1 apiKey disableQuotaGuard q sel c.now
          c.startLat c.startLng c.endLat c.endLng).2.1
        (fetchRouteFromPointsV1 apiKey disableQuotaGuard q sel c.now
          c.startLat c.startLng c.endLat c.endLng).2.2.1 rest

/-- Component state of variant 2: quota counter, abort-controller tokens
and the shared selection state.  cancelTokenRef is modelled as the token of
the controller currently stored in the ref; abortedTokens records every
controller on which abort() has been called; nextToken mints fresh
controller identities. -/
structure StateV2 where
  requestCount : Nat
  nextToken : Nat
  currentToken : Option Nat
  abortedTokens : List Nat
  sel : SelectionState
deriving DecidableEq

/-- Cancel-previous-request block of variant 2: if a controller is stored
in cancelTokenRef, abort() it; otherwise nothing happens. -/
def abortPrevious (s : StateV2) : StateV2 :=
  match s.currentToken with
  | some t => { s with abortedTokens := t :: s.abortedTokens }
  | none => s

/-- Synchronous part of variant 2's fetchRouteFromPoints: key check, then
abort of the previous pending request, then quota check, then a fresh
controller is stored, the counter incremented, and the single axios call
made (counted in the last component).  There is no spacing check in this
variant. -/
def fetchRouteFromPointsV2 (apiKey : Option String) (disableQuotaGuard : Bool)
    (s : StateV2) (startLat startLng endLat endLng : ℚ) :
    FetchOutcome × StateV2 × Nat :=
  if keyMissing apiKey then
    (FetchOutcome.missingCredential, s, 0)
  else
    let s1 := abortPrevious s
    if disableQuotaGuard = false ∧ SAFETY_LIMIT ≤ s1.requestCount then
      (FetchOutcome.rejectedQuotaExceeded, s1, 0)
    else
      (FetchOutcome.issued,
        { s1 with
            currentToken := some s1.nextToken,
            nextToken := s1.nextToken + 1,
            requestCount := s1.requestCount + 1 }, 1)

/-- Coordinate arguments of one variant-2 call (this variant reads no
clock). -/
structure CallArgs where
  startLat : ℚ
  startLng : ℚ
  endLat : ℚ
  endLng : ℚ
deriving DecidableEq

/-- Run a sequence of variant-2 calls, threading the state, recording each
outcome. -/
def runV2 (apiKey : Option String) (disableQuotaGuard : Bool)
    (s : StateV2) : List CallArgs → List FetchOutcome
  | [] => []
  | c :: rest =>
    let r := fetchRouteFromPointsV2 apiKey disableQuotaGuard s
      c.startLat c.startLng c.endLat c.endLng
    r.1 :: runV2 apiKey disableQuotaGuard r.2.1 rest

/-- Decoding of one wire pair: latitude from index 1, longitude from index
0, as in the response mapping c => ({latitude: c[1], longitude: c[0]}). -/
def decodePair (c : ℚ × ℚ) : Coordinate :=
  { latitude := c.2, longitude := c.1 }

/-- Encoding of a coordinate into the request-body wire order
[longitude, latitude]. -/
def encodePair (p : Coordinate) : ℚ × ℚ :=
  (p.longitude, p.latitude)

/-- Parsed successful response: the first feature's geometry coordinates
(wire order) and its summary distance (meters) and duration (seconds). -/
structure RouteResponse where
  geometryCoordinates : List (ℚ × ℚ)
  summaryDistance : ℚ
  summaryDuration : ℚ
deriving DecidableEq

/-- Midpoint interpolation used by the smoothing step. -/
def midpoint (p q : Coordinate) : Coordinate :=
  { latitude := (p.latitude + q.latitude) / 2,
    longitude := (p.longitude + q.longitude) / 2 }

/-- Tail of the smoothing flatMap: for each element after the first, emit
the midpoint with its predecessor followed by the element itself. -/
def smoothTail (prev : Coordinate) : List Coordinate → List Coordinate
  | [] => []
  | p :: rest => midpoint prev p :: p :: smoothTail p rest

/-- smoothCoords from variant 2: coords.flatMap emitting [point] at index
0 and [midpoint(prev, point), point] at every later index. -/
def smoothCoords : List Coordinate → List Coordinate
  | [] => []
  | p :: rest => p :: smoothTail p rest

/-- Non-negative case of JavaScript's toFixed(2): the integer n for which
n / 100 is closest to the value, ties resolved to the larger n, rendered
with a two-digit fraction. -/
def jsToFixed2Nonneg (q : ℚ) : String :=
  let n : Nat := (⌊q * 100 + 1 / 2⌋).toNat
  let ip := n / 100
  let fr := n % 100
  toString ip ++ "." ++ (if fr < 10 then "0" ++ toString fr else toString fr)

/-- JavaScript's toFixed(2); negative values format their negation behind
a sign. -/
def jsToFixed2 (q : ℚ) : String :=
  if q < 0 then "-" ++ jsToFixed2Nonneg (-q) else jsToFixed2Nonneg q

/-- JavaScript's Math.round: floor of the value plus one half. -/
def jsMathRound (q : ℚ) : Int := ⌊q + 1 / 2⌋

/-- Distance display string: (summary.distance / 1000).toFixed(2) + " km". -/
def formatDistance (meters : ℚ) : String :=
  jsToFixed2 (meters / 1000) ++ " km"

/-- Duration display string: Math.round(summary.duration / 60) + " min". -/
def formatDuration (seconds : ℚ) : String :=
  toString (jsMathRound (seconds / 60)) ++ " min"

/-- Success continuation of variant 1: decode the geometry, set the two
display strings and the raw (unsmoothed) polyline. -/
def applyRouteSuccessV1 (sel : SelectionState) (resp : RouteResponse) :
    SelectionState :=
  let coords := resp.geometryCoordinates.map decodePair
  { sel with
      routeCoords := coords,
      distance := some (formatDistance resp.summaryDistance),
      duration := some (formatDuration resp.summaryDuration) }

/-- Success continuation of variant 2: decode the geometry, smooth it, set
the display strings and the smoothed polyline. -/
def applyRouteSuccessV2 (s : StateV2) (resp : RouteResponse) : StateV2 :=
  let coords := resp.geometryCoordinates.map decodePair
  let smoothed := smoothCoords coords
  { s with sel :=
      { s.sel with
          routeCoords := smoothed,
          distance := some (formatDistance resp.summaryDistance),
          duration := some (formatDuration resp.summaryDuration) } }

/-- How one variant-2 request settles: a parsed successful response, a
cancellation (the abort took effect, axios rejected with CanceledError /
ERR_CANCELED), or any other failure. -/
inductive FetchResult
  | success (resp : RouteResponse)
  | canceled
  | failure
deriving DecidableEq

/-- Completion continuation of variant 2 for the request identified by
the given controller token.  A canceled settlement returns from the catch
block without touching state; any other failure only logs; a successful
settlement applies the route unconditionally — the source compares the
settling request's token against nothing. -/
def completeV2 (s : StateV2) (_token : Nat) : FetchResult → StateV2
  | FetchResult.success resp => applyRouteSuccessV2 s resp
  | FetchResult.canceled => s
  | FetchResult.failure => s

/-- handleMapPress from the source (identical in both variants): with no
start point, record the tap as start and clear the route artifact; with a
start but no end, record the tap as end and hand the pair to the fetch
pipeline (returned as the second component); with both present, reset to
the tap as new start. -/
def handleMapPress (s : SelectionState) (tap : Coordinate) :
    SelectionState × Option (Coordinate × Coordinate) :=
  match s.startPoint with
  | none =>
    ({ s with
        startPoint := some tap,
        routeCoords := [],
        distance := none,
        duration := none }, none)
  | some sp =>
    match s.endPoint with
    | none =>
      ({ s with endPoint := some tap }, some (sp, tap))
    | some _ =>
      ({ startPoint := some tap,
         endPoint := none,
         routeCoords := [],
         distance := none,
         duration := none }, none)

/-- handleClearAll from the source, also wired to the map's long press:
drop both selections and the route artifact. -/
def handleClearAll (_s : SelectionState) : SelectionState :=
  { startPoint := none,
    endPoint := none,
    routeCoords := [],
    distance := none,
    duration := none }

/-! Helper lemmas. -/

/-- SAFETY_LIMIT evaluates to 1500. -/
theorem safety_limit_eq : SAFETY_LIMIT = 1500 := by
  rw [SAFETY_LIMIT, DAILY_QUOTA]
  norm_num
  decide

/-- Aborting the previous request does not change the quota counter. -/
theorem abortPrevious_requestCount (s : StateV2) :
    (abortPrevious s).requestCount = s.requestCount := by
  cases h : s.currentToken <;> simp [abortPrevious, h]

/-- Aborting the previous request does not change the stored controller. -/
theorem abortPrevious_currentToken (s : StateV2) :
    (abortPrevious s).currentToken = s.currentToken := by
  cases h : s.currentToken <;> simp [abortPrevious, h]

/-- Aborting the previous request does not change the token counter. -/
theorem abortPrevious_nextToken (s : StateV2) :
    (abortPrevious s).nextToken = s.nextToken := by
  cases h : s.currentToken <;> simp [abortPrevious, h]

/-- Aborting the previous request does not change the selection state. -/
theorem abortPrevious_sel (s : StateV2) :
    (abortPrevious s).sel = s.sel := by
  cases h : s.currentToken <;> simp [abortPrevious, h]

/-- Aborting the previous request records the pending controller's token
among the aborted ones. -/
theorem abortPrevious_mem (s : StateV2) (t : Nat)
    (h : s.currentToken = some t) :
    t ∈ (abortPrevious s).abortedTokens := by
  unfold abortPrevious
  rw [h]
  exact List.mem_cons_self t s.abortedTokens

/-- A variant-1 call that does not issue a fetch leaves the quota state and
the selection untouched and performs no network call. -/
theorem fetchV1_not_issued (apiKey : Option String) (g : Bool) (q : QuotaV1)
    (sel : SelectionState) (now : Int) (a b c d : ℚ)
    (hout : (fetchRouteFromPointsV1 apiKey g q sel now a b c d).1 ≠
      FetchOutcome.issued) :
    (fetchRouteFromPointsV1 apiKey g q sel now a b c d).2.1 = q ∧
    (fetchRouteFromPointsV1 apiKey g q sel now a b c d).2.2.1 = sel ∧
    (fetchRouteFromPointsV1 apiKey g q sel now a b c d).2.2.2 = 0 := by
  unfold fetchRouteFromPointsV1 at hout ⊢
  by_cases h1 : keyMissing apiKey = true
  · rw [if_pos h1]
    exact ⟨rfl, rfl, rfl⟩
  · rw [if_neg h1] at hout ⊢
    by_cases h2 : now - q.lastRequestTime < REQUEST_INTERVAL_MS
    · rw [if_pos h2]
      exact ⟨rfl, rfl, rfl⟩
    · rw [if_neg h2] at hout ⊢
      by_cases h3 : g = false ∧ SAFETY_LIMIT ≤ q.requestCount
      · rw [if_pos h3]
        exact ⟨rfl, rfl, rfl⟩
      · rw [if_neg h3] at hout
        exact absurd rfl hout

/-- A variant-1 call that issues a fetch passed the spacing check, bumps
the counter, records its own timestamp, leaves the selection untouched and
performs one network call. -/
theorem fetchV1_issued (apiKey : Option String) (g : Bool) (q : QuotaV1)
    (sel : SelectionState) (now : Int) (a b c d : ℚ)
    (hout : (fetchRouteFromPointsV1 apiKey g q sel now a b c d).1 =
      FetchOutcome.issued) :
    q.lastRequestTime + REQUEST_INTERVAL_MS ≤ now ∧
    (fetchRouteFromPointsV1 apiKey g q sel now a b c d).2.1 =
      { requestCount := q.requestCount + 1, lastRequestTime := now } ∧
    (fetchRouteFromPointsV1 apiKey g q sel now a b c d).2.2.1 = sel ∧
    (fetchRouteFromPointsV1 apiKey g q sel now a b c d).2.2.2 = 1 := by
  unfold fetchRouteFromPointsV1 at hout ⊢
  by_cases h1 : keyMissing apiKey = true
  · rw [if_pos h1] at hout
    exact absurd hout (by simp)
  · rw [if_neg h1] at hout ⊢
    by_cases h2 : now - q.lastRequestTime < REQUEST_INTERVAL_MS
    · rw [if_pos h2] at hout
      exact absurd hout (by simp)
    · rw [if_neg h2] at hout ⊢
      by_cases h3 : g = false ∧ SAFETY_LIMIT ≤ q.requestCount
      · rw [if_pos h3] at hout
        exact absurd hout (by simp)
      · rw [if_neg h3]
        refine ⟨?_, rfl, rfl, rfl⟩
        omega

/-- A variant-1 call whose quota counter has reached the safety limit is
rejected with the spacing check deciding which rejection fires, and the
state survives unchanged. -/
theorem fetchV1_over_quota (apiKey : Option String) (q : QuotaV1)
    (sel : SelectionState) (now : Int) (a b c d : ℚ)
    (hk : keyMissing apiKey = false) (hq : SAFETY_LIMIT ≤ q.requestCount) :
    fetchRouteFromPointsV1 apiKey false q sel now a b c d =
      ((if now - q.lastRequestTime < REQUEST_INTERVAL_MS then
          FetchOutcome.rejectedTooSoon
        else FetchOutcome.rejectedQuotaExceeded), q, sel, 0) := by
  unfold fetchRouteFromPointsV1
  rw [if_neg (by simp [hk])]
  by_cases hs : now - q.lastRequestTime < REQUEST_INTERVAL_MS
  · rw [if_pos hs, if_pos hs]
  · rw [if_neg hs, if_neg hs, if_pos ⟨rfl, hq⟩]

/-- A variant-2 call whose quota counter has reached the safety limit is
rejected as quota-exceeded with the counter, token counter, stored
controller and selection unchanged. -/
theorem fetchV2_over_quota (apiKey : Option String) (s : StateV2)
    (a b c d : ℚ)
    (hk : keyMissing apiKey = false) (hq : SAFETY_LIMIT ≤ s.requestCount) :
    (fetchRouteFromPointsV2 apiKey false s a b c d).1 =
      FetchOutcome.rejectedQuotaExceeded ∧
    (fetchRouteFromPointsV2 apiKey false s a b c d).2.1.requestCount =
      s.requestCount ∧
    (fetchRouteFromPointsV2 apiKey false s a b c d).2.1.currentToken =
      s.currentToken ∧
    (fetchRouteFromPointsV2 apiKey false s a b c d).2.1.sel = s.sel ∧
    (fetchRouteFromPointsV2 apiKey false s a b c d).2.2 = 0 := by
  unfold fetchRouteFromPointsV2
  rw [if_neg (by simp [hk])]
  have hq1 : SAFETY_LIMIT ≤ (abortPrevious s).requestCount := by
    rw [abortPrevious_requestCount]
    exact hq
  rw [if_pos ⟨rfl, hq1⟩]
  exact ⟨rfl, abortPrevious_requestCount s, abortPrevious_currentToken s,
    abortPrevious_sel s, rfl⟩

/-- Unfolding of runV1 on a cons cell. -/
theorem runV1_cons (apiKey : Option String) (g : Bool) (q : QuotaV1)
    (sel : SelectionState) (c : CallV1) (rest : List CallV1) :
    runV1 apiKey g q sel (c :: rest) =
      (c.now, (fetchRouteFromPointsV1 apiKey g q sel c.now
        c.startLat c.startLng c.endLat c.endLng).1) ::
      runV1 apiKey g
        (fetchRouteFromPointsV1 apiKey g q sel c.now
          c.startLat c.startLng c.endLat c.endLng).2.1
        (fetchRouteFromPointsV1 apiKey g q sel c.now
          c.startLat c.startLng c.endLat c.endLng).2.2.1 rest := rfl

/-- Unfolding of runV2 on a cons cell. -/
theorem runV2_cons (apiKey : Option String) (g : Bool) (s : StateV2)
    (c : CallArgs) (rest : List CallArgs) :
    runV2 apiKey g s (c :: rest) =
      (fetchRouteFromPointsV2 apiKey g s
        c.startLat c.startLng c.endLat c.endLng).1 ::
      runV2 apiKey g
        (fetchRouteFromPointsV2 apiKey g s
          c.startLat c.startLng c.endLat c.endLng).2.1 rest := rfl

/-- Every admitted timestamp of a variant-1 call sequence is at least one
full interval after the incoming lastRequestTime. -/
theorem admittedTimesV1_ge (apiKey : Option String) (g : Bool) :
    ∀ (calls : List CallV1) (q : QuotaV1) (sel : SelectionState) (t : Int),
      t ∈ admittedTimesV1 apiKey g q sel calls →
      q.lastRequestTime + REQUEST_INTERVAL_MS ≤ t := by
  intro calls
  induction calls with
  | nil =>
    intro q sel t ht
    simp [admittedTimesV1] at ht
  | cons c rest ih =>
    intro q sel t ht
    rw [admittedTimesV1] at ht
    by_cases hi : (fetchRouteFromPointsV1 apiKey g q sel c.now
        c.startLat c.startLng c.endLat c.endLng).1 = FetchOutcome.issued
    · rw [if_pos hi] at ht
      have hiss := fetchV1_issued apiKey g q sel c.now
        c.startLat c.startLng c.endLat c.endLng hi
      rcases List.mem_cons.mp ht with h | h
      · subst h
        exact hiss.1
      · have htail := ih _ _ t h
        rw [hiss.2.1] at htail
        dsimp only at htail
        have hle : q.lastRequestTime + REQUEST_INTERVAL_MS ≤ c.now := hiss.1
        simp only [REQUEST_INTERVAL_MS] at htail hle ⊢
        omega
    · rw [if_neg hi] at ht
      have hrej := fetchV1_not_issued apiKey g q sel c.now
        c.startLat c.startLng c.endLat c.endLng hi
      have htail := ih _ _ t ht
      rw [hrej.1] at htail
      exact htail

/-- Admitted timestamps of a variant-1 call sequence are pairwise at least
one interval apart. -/
theorem admittedTimesV1_pairwise (apiKey : Option String) (g : Bool) :
    ∀ (calls : List CallV1) (q : QuotaV1) (sel : SelectionState),
      List.Pairwise (fun t1 t2 => t1 + REQUEST_INTERVAL_MS ≤ t2)
        (admittedTimesV1 apiKey g q sel calls) := by
  intro calls
  induction calls with
  | nil =>
    intro q sel
    simp [admittedTimesV1]
  | cons c rest ih =>
    intro q sel
    rw [admittedTimesV1]
    by_cases hi : (fetchRouteFromPointsV1 apiKey g q sel c.now
        c.startLat c.startLng c.endLat c.endLng).1 = FetchOutcome.issued
    · rw [if_pos hi]
      refine List.Pairwise.cons ?_ (ih _ _)
      intro t ht
      have htail := admittedTimesV1_ge apiKey g rest _ _ t ht
      have hiss := fetchV1_issued apiKey g q sel c.now
        c.startLat c.startLng c.endLat c.endLng hi
      rw [hiss.2.1] at htail
      exact htail
    · rw [if_neg hi]
      exact ih _ _

/-- A variant-1 run starting over quota only produces rejections, and the
quota state is never modified along it. -/
theorem runV1_over_quota (apiKey : Option String)
    (hk : keyMissing apiKey = false) :
    ∀ (calls : List CallV1) (q : QuotaV1) (sel : SelectionState),
      SAFETY_LIMIT ≤ q.requestCount →
      ∀ e ∈ runV1 apiKey false q sel calls,
        e.2 = if e.1 - q.lastRequestTime < REQUEST_INTERVAL_MS then
          FetchOutcome.rejectedTooSoon else FetchOutcome.rejectedQuotaExceeded := by
  intro calls
  induction calls with
  | nil =>
    intro q sel hq e he
    simp [runV1] at he
  | cons c rest ih =>
    intro q sel hq e he
    rw [runV1_cons] at he
    have hfq := fetchV1_over_quota apiKey q sel c.now
      c.startLat c.startLng c.endLat c.endLng hk hq
    rcases List.mem_cons.mp he with h | h
    · subst h
      rw [hfq]
    · have hst : runV1 apiKey false
          (fetchRouteFromPointsV1 apiKey false q sel c.now
            c.startLat c.startLng c.endLat c.endLng).2.1
          (fetchRouteFromPointsV1 apiKey false q sel c.now
            c.startLat c.startLng c.endLat c.endLng).2.2.1 rest =
          runV1 apiKey false q sel rest := by
        rw [hfq]
      rw [hst] at h
      exact ih q sel hq e h

/-- A variant-2 run starting over quota only produces quota rejections. -/
theorem runV2_over_quota (apiKey : Option String)
    (hk : keyMissing apiKey = false) :
    ∀ (calls2 : List CallArgs) (s : StateV2),
      SAFETY_LIMIT ≤ s.requestCount →
      ∀ o ∈ runV2 apiKey false s calls2,
        o = FetchOutcome.rejectedQuotaExceeded := by
  intro calls2
  induction calls2 with
  | nil =>
    intro s hq o ho
    simp [runV2] at ho
  | cons c rest ih =>
    intro s hq o ho
    rw [runV2_cons] at ho
    have hf := fetchV2_over_quota apiKey s
      c.startLat c.startLng c.endLat c.endLng hk hq
    rcases List.mem_cons.mp ho with h | h
    · subst h
      exact hf.1
    · refine ih _ ?_ o h
      rw [hf.2.1]
      exact hq

/-- Every variant-2 call that passes the credential check aborts the
controller that was pending when it started, whatever happens afterwards. -/
theorem fetchV2_aborts_prior (apiKey : Option String) (g : Bool)
    (s : StateV2) (a b c d : ℚ) (t : Nat)
    (hk : keyMissing apiKey = false) (hc : s.currentToken = some t) :
    t ∈ (fetchRouteFromPointsV2 apiKey g s a b c d).2.1.abortedTokens := by
  unfold fetchRouteFromPointsV2
  rw [if_neg (by simp [hk])]
  by_cases hq : g = false ∧ SAFETY_LIMIT ≤ (abortPrevious s).requestCount
  · rw [if_pos hq]
    exact abortPrevious_mem s t hc
  · rw [if_neg hq]
    exact abortPrevious_mem s t hc

/-- Length of the smoothing tail: two output points per input point. -/
theorem smoothTail_length (rest : List Coordinate) :
    ∀ prev, (smoothTail prev rest).length = 2 * rest.length := by
  induction rest with
  | nil =>
    intro prev
    rfl
  | cons p r ih =>
    intro prev
    simp only [smoothTail, List.length_cons, ih p]
    omega

/-- Even output indices of the smoothing return the input points in
order. -/
theorem smooth_get_even (rest : List Coordinate) :
    ∀ (prev : Coordinate) (i : Nat),
      (prev :: smoothTail prev rest).get? (2 * i) = (prev :: rest).get? i := by
  induction rest with
  | nil =>
    intro prev i
    cases i with
    | zero => rfl
    | succ j =>
      have h2 : 2 * (j + 1) = 2 * j + 1 + 1 := by omega
      rw [h2]
      simp [smoothTail]
  | cons p r ih =>
    intro prev i
    cases i with
    | zero => rfl
    | succ j =>
      have h2 : 2 * (j + 1) = 2 * j + 1 + 1 := by omega
      rw [h2, List.get?_cons_succ]
      simp only [smoothTail]
      rw [List.get?_cons_succ]
      rw [ih p j, List.get?_cons_succ]

/-- Odd output indices of the smoothing hold the midpoint of the two
adjacent input points. -/
theorem smooth_get_odd (rest : List Coordinate) :
    ∀ (prev : Coordinate) (i : Nat) (a b : Coordinate),
      (prev :: rest).get? i = some a →
      (prev :: rest).get? (i + 1) = some b →
      (prev :: smoothTail prev rest).get? (2 * i + 1) =
        some (midpoint a b) := by
  induction rest with
  | nil =>
    intro prev i a b ha hb
    exfalso
    cases i with
    | zero => simp at hb
    | succ j => simp at hb
  | cons p r ih =>
    intro prev i a b ha hb
    cases i with
    | zero =>
      simp only [List.get?_cons_zero] at ha
      simp only [List.get?_cons_succ, List.get?_cons_zero] at hb
      injection ha with ha'
      injection hb with hb'
      subst ha'
      subst hb'
      simp [smoothTail]
    | succ j =>
      rw [List.get?_cons_succ] at ha hb
      have h2 : 2 * (j + 1) + 1 = 2 * j + 1 + 1 + 1 := by omega
      rw [h2, List.get?_cons_succ]
      simp only [smoothTail]
      rw [List.get?_cons_succ]
      exact ih p j a b ha hb

/-- The smoothing keeps the last element. -/
theorem smooth_getLast (rest : List Coordinate) :
    ∀ prev,
      (prev :: smoothTail prev rest).getLast? = (prev :: rest).getLast? := by
  induction rest with
  | nil =>
    intro prev
    rfl
  | cons p r ih =>
    intro prev
    simp only [smoothTail]
    rw [List.getLast?_cons_cons, List.getLast?_cons_cons]
    rw [ih p]
    rw [List.getLast?_cons_cons]

/-! Claim theorems. -/

/-- Claim C1 (amended): with bypassGuard=false and the credential present,
once requestCount has reached SAFETY_LIMIT every subsequent call of either
variant is rejected until process restart; but in the spacing-guarded
variant the spacing check runs first, so a call that is also too soon is
rejected as too-soon (silently, without the quota warning), and only calls
that pass the spacing check are rejected as quota-exceeded.  In the
cancellation variant, which has no spacing check, every such call is
rejected as quota-exceeded. -/
theorem c1_over_quota_rejections (apiKey : Option String) (q : QuotaV1)
    (sel : SelectionState) (calls : List CallV1) (s : StateV2)
    (calls2 : List CallArgs) (hk : keyMissing apiKey = false) :
    (SAFETY_LIMIT ≤ q.requestCount →
      ∀ e ∈ runV1 apiKey false q sel calls,
        e.2 = if e.1 - q.lastRequestTime < REQUEST_INTERVAL_MS then
          FetchOutcome.rejectedTooSoon
        else FetchOutcome.rejectedQuotaExceeded) ∧
    (SAFETY_LIMIT ≤ s.requestCount →
      ∀ o ∈ runV2 apiKey false s calls2,
        o = FetchOutcome.rejectedQuotaExceeded) :=
  ⟨fun hq => runV1_over_quota apiKey hk calls q sel hq,
   fun hq => runV2_over_quota apiKey hk calls2 s hq⟩

/-- Claim C1 counterexample: in the spacing-guarded variant, a call made
while over quota (requestCount = 1500 = SAFETY_LIMIT) but only 1 ms after
the last admitted request is rejected as too-soon, not as quota-exceeded,
refuting the claimed precedence of the quota check. -/
theorem c1_counterexample :
    SAFETY_LIMIT ≤ 1500 ∧
    fetchRouteFromPointsV1 (some "k") false ⟨1500, 100000⟩
      ⟨none, none, [], none, none⟩ 100001 12 77 13 77 =
      (FetchOutcome.rejectedTooSoon, ⟨1500, 100000⟩,
        ⟨none, none, [], none, none⟩, 0) ∧
    FetchOutcome.rejectedTooSoon ≠ FetchOutcome.rejectedQuotaExceeded := by
  refine ⟨by simp [safety_limit_eq], ?_, by decide⟩
  decide

/-- Claim C1 witness: the amended theorem applied at a concrete over-quota
state, for one call of each variant. -/
theorem c1_witness :
    keyMissing (some "k") = false ∧
    SAFETY_LIMIT ≤ 1500 ∧
    (∀ e ∈ runV1 (some "k") false ⟨1500, 0⟩ ⟨none, none, [], none, none⟩
        [⟨100000, 12, 77, 13, 77⟩],
      e.2 = if e.1 - (⟨1500, 0⟩ : QuotaV1).lastRequestTime <
          REQUEST_INTERVAL_MS then
        FetchOutcome.rejectedTooSoon
      else FetchOutcome.rejectedQuotaExceeded) ∧
    (∀ o ∈ runV2 (some "k") false
        ⟨1500, 0, none, [], ⟨none, none, [], none, none⟩⟩ [⟨12, 77, 13, 77⟩],
      o = FetchOutcome.rejectedQuotaExceeded) :=
  ⟨rfl, by simp [safety_limit_eq],
   (c1_over_quota_rejections (some "k") ⟨1500, 0⟩
     ⟨none, none, [], none, none⟩ [⟨100000, 12, 77, 13, 77⟩]
     ⟨1500, 0, none, [], ⟨none, none, [], none, none⟩⟩
     [⟨12, 77, 13, 77⟩] rfl).1 (by simp [safety_limit_eq]),
   (c1_over_quota_rejections (some "k") ⟨1500, 0⟩
     ⟨none, none, [], none, none⟩ [⟨100000, 12, 77, 13, 77⟩]
     ⟨1500, 0, none, [], ⟨none, none, [], none, none⟩⟩
     [⟨12, 77, 13, 77⟩] rfl).2 (by simp [safety_limit_eq])⟩

/-- Claim C2 (amended): in the spacing-guarded variant, any two admitted
calls of a run are at least REQUEST_INTERVAL_MS apart (pairwise over the
whole run), and a single call arriving sooner than the interval after the
recorded last request is rejected as too-soon with no fetch issued and no
state change.  The cancellation variant performs no spacing check at all
(see the counterexample). -/
theorem c2_spacing_guarantee (apiKey : Option String) (g : Bool)
    (q : QuotaV1) (sel : SelectionState) (calls : List CallV1) (now : Int)
    (a b c d : ℚ) (hk : keyMissing apiKey = false) :
    List.Pairwise (fun t1 t2 => t1 + REQUEST_INTERVAL_MS ≤ t2)
      (admittedTimesV1 apiKey g q sel calls) ∧
    (now - q.lastRequestTime < REQUEST_INTERVAL_MS →
      fetchRouteFromPointsV1 apiKey g q sel now a b c d =
        (FetchOutcome.rejectedTooSoon, q, sel, 0)) := by
  constructor
  · exact admittedTimesV1_pairwise apiKey g calls q sel
  · intro hs
    unfold fetchRouteFromPointsV1
    rw [if_neg (by simp [hk]), if_pos hs]

/-- Claim C2 counterexample: the cancellation variant admits two
immediately consecutive calls — both issue a fetch — although the gap
(1 ms in the scenario) is far below REQUEST_INTERVAL_MS, because that
variant never consults a clock. -/
theorem c2_counterexample :
    runV2 (some "k") false ⟨0, 0, none, [], ⟨none, none, [], none, none⟩⟩
      [⟨12, 77, 13, 77⟩, ⟨12, 77, 13, 77⟩] =
      [FetchOutcome.issued, FetchOutcome.issued] ∧
    (1 : Int) - 0 < REQUEST_INTERVAL_MS := by
  constructor
  · simp only [runV2, runV2_cons, fetchRouteFromPointsV2, abortPrevious,
      safety_limit_eq]
    decide
  · rw [REQUEST_INTERVAL_MS]
    omega

/-- Claim C2 witness: the spacing guarantee applied at a concrete state,
with the too-soon rejection discharged at a call 5000 ms after time 0. -/
theorem c2_witness :
    keyMissing (some "k") = false ∧
    List.Pairwise (fun t1 t2 => t1 + REQUEST_INTERVAL_MS ≤ t2)
      (admittedTimesV1 (some "k") false ⟨0, 0⟩ ⟨none, none, [], none, none⟩
        [⟨20000, 12, 77, 13, 77⟩]) ∧
    fetchRouteFromPointsV1 (some "k") false ⟨0, 0⟩
      ⟨none, none, [], none, none⟩ 5000 12 77 13 77 =
      (FetchOutcome.rejectedTooSoon, ⟨0, 0⟩,
        ⟨none, none, [], none, none⟩, 0) :=
  ⟨rfl,
   (c2_spacing_guarantee (some "k") false ⟨0, 0⟩
     ⟨none, none, [], none, none⟩ [⟨20000, 12, 77, 13, 77⟩]
     5000 12 77 13 77 rfl).1,
   (c2_spacing_guarantee (some "k") false ⟨0, 0⟩
     ⟨none, none, [], none, none⟩ [⟨20000, 12, 77, 13, 77⟩]
     5000 12 77 13 77 rfl).2 (by decide)⟩

/-- Claim C4: the tap and clear handlers realize the three-state machine.
From Idle (no start point) a tap becomes the start and clears the route
artifact; from StartChosen a tap becomes the end, keeps the artifact
fields, and hands the (start, tap) pair to the fetch pipeline; from
RouteReady a tap resets to StartChosen with the new point as start,
discarding the previous route artifact; handleClearAll (also wired to long
press) returns any state to Idle discarding selections and artifact. -/
theorem c4_state_machine (tap a b : Coordinate) (sp ep : Option Coordinate)
    (rc : List Coordinate) (d du : Option String) :
    handleMapPress ⟨none, none, rc, d, du⟩ tap =
      (⟨some tap, none, [], none, none⟩, none) ∧
    handleMapPress ⟨some a, none, rc, d, du⟩ tap =
      (⟨some a, some tap, rc, d, du⟩, some (a, tap)) ∧
    handleMapPress ⟨some a, some b, rc, d, du⟩ tap =
      (⟨some tap, none, [], none, none⟩, none) ∧
    handleClearAll ⟨sp, ep, rc, d, du⟩ = ⟨none, none, [], none, none⟩ :=
  ⟨rfl, rfl, rfl, rfl⟩

/-- Claim C5: with the API credential absent (undefined or empty), both
variants of fetchRouteFromPoints fail immediately with the missing
credential outcome, mutate nothing, and issue zero network calls, for
every pair of input coordinates. -/
theorem c5_missing_credential (apiKey : Option String) (g : Bool)
    (q : QuotaV1) (sel : SelectionState) (now : Int) (a b c d : ℚ)
    (s2 : StateV2) (hk : keyMissing apiKey = true) :
    fetchRouteFromPointsV1 apiKey g q sel now a b c d =
      (FetchOutcome.missingCredential, q, sel, 0) ∧
    fetchRouteFromPointsV2 apiKey g s2 a b c d =
      (FetchOutcome.missingCredential, s2, 0) := by
  constructor
  · unfold fetchRouteFromPointsV1
    rw [if_pos hk]
  · unfold fetchRouteFromPointsV2
    rw [if_pos hk]

/-- Claim C5 witness: with no credential configured, a concrete call fails
with the missing-credential outcome and a network count of zero. -/
theorem c5_witness :
    fetchRouteFromPointsV1 none false ⟨0, 0⟩ ⟨none, none, [], none, none⟩
        20000 12 77 13 77 =
      (FetchOutcome.missingCredential, ⟨0, 0⟩,
        ⟨none, none, [], none, none⟩, 0) ∧
    fetchRouteFromPointsV2 none false ⟨0, 0, none, [], ⟨none, none, [], none, none⟩⟩
        12 77 13 77 =
      (FetchOutcome.missingCredential,
        ⟨0, 0, none, [], ⟨none, none, [], none, none⟩⟩, 0) :=
  c5_missing_credential none false ⟨0, 0⟩ ⟨none, none, [], none, none⟩
    20000 12 77 13 77 ⟨0, 0, none, [], ⟨none, none, [], none, none⟩⟩ rfl

/-- Claim C8: encoding a coordinate into the wire order
[longitude, latitude] and decoding a wire pair back into a coordinate are
mutually inverse, exactly, in both directions. -/
theorem c8_roundtrip (p : Coordinate) (w : ℚ × ℚ) :
    decodePair (encodePair p) = p ∧ encodePair (decodePair w) = w :=
  ⟨rfl, rfl⟩

/-- Claim C9: a successful fetch whose summary reports 12345 meters and
1800 seconds produces exactly the display strings "12.35 km"
(distance / 1000 to two decimals) and "30 min" (duration / 60 rounded),
in both variants' success continuations. -/
theorem c9_formatting (s : StateV2) (sel : SelectionState)
    (coords : List (ℚ × ℚ)) :
    (applyRouteSuccessV2 s ⟨coords, 12345, 1800⟩).sel.distance =
      some "12.35 km" ∧
    (applyRouteSuccessV2 s ⟨coords, 12345, 1800⟩).sel.duration =
      some "30 min" ∧
    (applyRouteSuccessV1 sel ⟨coords, 12345, 1800⟩).distance =
      some "12.35 km" ∧
    (applyRouteSuccessV1 sel ⟨coords, 12345, 1800⟩).duration =
      some "30 min" := by
  have hd : formatDistance 12345 = "12.35 km" := by
    rw [formatDistance, jsToFixed2, if_neg (by norm_num), jsToFixed2Nonneg]
    norm_num
    decide
  have ht : formatDuration 1800 = "30 min" := by
    rw [formatDuration, jsMathRound]
    norm_num
    decide
  exact ⟨by simp [applyRouteSuccessV2, hd], by simp [applyRouteSuccessV2, ht],
    by simp [applyRouteSuccessV1, hd], by simp [applyRouteSuccessV1, ht]⟩

/-- Claim C3 (amended): admitting a new fetch in the cancellation variant
aborts the controller that was in flight (invalidating its token), and on
admission the stored current token becomes the freshly minted one, so the
prior token is no longer current; a completion that settles as canceled
(the abort took effect before the response) mutates no state at all.  The
source performs no stale-token comparison, so this protection holds only
through the abort: a stale completion that settles successfully despite
the abort does mutate RouteResult (see the counterexample). -/
theorem c3_supersession (apiKey : Option String) (g : Bool) (s : StateV2)
    (a b c d : ℚ) (t : Nat) (hk : keyMissing apiKey = false)
    (hc : s.currentToken = some t) (hn : t ≠ s.nextToken) :
    t ∈ (fetchRouteFromPointsV2 apiKey g s a b c d).2.1.abortedTokens ∧
    ((fetchRouteFromPointsV2 apiKey g s a b c d).1 = FetchOutcome.issued →
      (fetchRouteFromPointsV2 apiKey g s a b c d).2.1.currentToken ≠
        some t) ∧
    (∀ (s2 : StateV2) (t2 : Nat),
      completeV2 s2 t2 FetchResult.canceled = s2) := by
  refine ⟨fetchV2_aborts_prior apiKey g s a b c d t hk hc, ?_,
    fun s2 t2 => rfl⟩
  intro hi
  unfold fetchRouteFromPointsV2 at hi ⊢
  rw [if_neg (by simp [hk])] at hi ⊢
  by_cases hq : g = false ∧ SAFETY_LIMIT ≤ (abortPrevious s).requestCount
  · rw [if_pos hq] at hi
    exact absurd hi (by simp)
  · rw [if_neg hq]
    show some (abortPrevious s).nextToken ≠ some t
    rw [abortPrevious_nextToken]
    intro hcontra
    injection hcontra with hcontra'
    exact hn hcontra'.symm

/-- Claim C3 counterexample: token 0 has been superseded (the current
token is 1 and 0 is among the aborted), yet a completion for token 0 that
settles as a success — the abort did not take effect — overwrites both the
distance display and the polyline, because the source compares no tokens. -/
theorem c3_counterexample :
    (⟨1, 2, some 1, [0], ⟨none, none, [], none, none⟩⟩ : StateV2).currentToken
      ≠ some 0 ∧
    0 ∈ (⟨1, 2, some 1, [0], ⟨none, none, [], none, none⟩⟩ :
      StateV2).abortedTokens ∧
    (completeV2 ⟨1, 2, some 1, [0], ⟨none, none, [], none, none⟩⟩ 0
      (FetchResult.success ⟨[(77, 12)], 12345, 1800⟩)).sel.distance ≠
      (⟨1, 2, some 1, [0], ⟨none, none, [], none, none⟩⟩ :
        StateV2).sel.distance ∧
    (completeV2 ⟨1, 2, some 1, [0], ⟨none, none, [], none, none⟩⟩ 0
      (FetchResult.success ⟨[(77, 12)], 12345, 1800⟩)).sel.routeCoords ≠
      (⟨1, 2, some 1, [0], ⟨none, none, [], none, none⟩⟩ :
        StateV2).sel.routeCoords := by
  refine ⟨by decide, by decide, ?_, ?_⟩
  · simp [completeV2, applyRouteSuccessV2]
  · simp [completeV2, applyRouteSuccessV2, smoothCoords, smoothTail,
      decodePair]

/-- Claim C3 witness: the supersession theorem applied at a concrete state
whose in-flight token 0 differs from the next token 1. -/
theorem c3_witness :
    0 ∈ (fetchRouteFromPointsV2 (some "k") false
      ⟨0, 1, some 0, [], ⟨none, none, [], none, none⟩⟩
      12 77 13 77).2.1.abortedTokens ∧
    ((fetchRouteFromPointsV2 (some "k") false
      ⟨0, 1, some 0, [], ⟨none, none, [], none, none⟩⟩ 12 77 13 77).1 =
        FetchOutcome.issued →
      (fetchRouteFromPointsV2 (some "k") false
        ⟨0, 1, some 0, [], ⟨none, none, [], none, none⟩⟩
        12 77 13 77).2.1.currentToken ≠ some 0) ∧
    (∀ (s2 : StateV2) (t2 : Nat),
      completeV2 s2 t2 FetchResult.canceled = s2) :=
  c3_supersession (some "k") false
    ⟨0, 1, some 0, [], ⟨none, none, [], none, none⟩⟩ 12 77 13 77 0
    rfl rfl (by decide)

/-- Claim C6: an admission rejection raises no error (the step function
returns a normal outcome) and mutates nothing: in the spacing-guarded
variant a too-soon or quota rejection returns the quota state, selection
and route artifact unchanged with zero network calls; in the cancellation
variant a quota rejection keeps the counter, stored controller token,
token counter and selection unchanged with zero network calls. -/
theorem c6_rejection_no_mutation (apiKey : Option String) (g : Bool)
    (q : QuotaV1) (sel : SelectionState) (now : Int) (a b c d : ℚ) :
    (∀ out q' sel' n,
      fetchRouteFromPointsV1 apiKey g q sel now a b c d = (out, q', sel', n) →
      (out = FetchOutcome.rejectedTooSoon ∨
        out = FetchOutcome.rejectedQuotaExceeded) →
      q' = q ∧ sel' = sel ∧ n = 0) ∧
    (∀ (s : StateV2) out2 s2 n2,
      fetchRouteFromPointsV2 apiKey g s a b c d = (out2, s2, n2) →
      out2 = FetchOutcome.rejectedQuotaExceeded →
      s2.requestCount = s.requestCount ∧ s2.currentToken = s.currentToken ∧
        s2.nextToken = s.nextToken ∧ s2.sel = s.sel ∧ n2 = 0) := by
  constructor
  · intro out q' sel' n h hrej
    have hout : (fetchRouteFromPointsV1 apiKey g q sel now a b c d).1 ≠
        FetchOutcome.issued := by
      rw [h]
      rcases hrej with hr | hr <;> rw [hr] <;> simp
    have hfix := fetchV1_not_issued apiKey g q sel now a b c d hout
    rw [h] at hfix
    exact hfix
  · intro s out2 s2 n2 h hrej
    by_cases h1 : keyMissing apiKey = true
    · unfold fetchRouteFromPointsV2 at h
      rw [if_pos h1] at h
      simp only [Prod.mk.injEq] at h
      rw [← h.1] at hrej
      exact absurd hrej (by decide)
    · unfold fetchRouteFromPointsV2 at h
      rw [if_neg h1] at h
      by_cases hq : g = false ∧ SAFETY_LIMIT ≤ (abortPrevious s).requestCount
      · rw [if_pos hq] at h
        simp only [Prod.mk.injEq] at h
        rw [← h.2.1, ← h.2.2]
        exact ⟨abortPrevious_requestCount s, abortPrevious_currentToken s,
          abortPrevious_nextToken s, abortPrevious_sel s, rfl⟩
      · rw [if_neg hq] at h
        simp only [Prod.mk.injEq] at h
        rw [← h.1] at hrej
        exact absurd hrej (by decide)

/-- Claim C6 witness: a concrete too-soon rejection in the spacing-guarded
variant and a concrete quota rejection in the cancellation variant both
leave the enumerated state unchanged with zero calls. -/
theorem c6_witness :
    ((⟨0, 0⟩ : QuotaV1) = ⟨0, 0⟩ ∧
      (⟨none, none, [], none, none⟩ : SelectionState) =
        ⟨none, none, [], none, none⟩ ∧ (0 : Nat) = 0) ∧
    ((⟨1500, 2, some 1, [1, 0], ⟨none, none, [], none, none⟩⟩ :
        StateV2).requestCount =
      (⟨1500, 2, some 1, [0], ⟨none, none, [], none, none⟩⟩ :
        StateV2).requestCount ∧
      (⟨1500, 2, some 1, [1, 0], ⟨none, none, [], none, none⟩⟩ :
        StateV2).currentToken =
      (⟨1500, 2, some 1, [0], ⟨none, none, [], none, none⟩⟩ :
        StateV2).currentToken ∧
      (⟨1500, 2, some 1, [1, 0], ⟨none, none, [], none, none⟩⟩ :
        StateV2).nextToken =
      (⟨1500, 2, some 1, [0], ⟨none, none, [], none, none⟩⟩ :
        StateV2).nextToken ∧
      (⟨1500, 2, some 1, [1, 0], ⟨none, none, [], none, none⟩⟩ :
        StateV2).sel =
      (⟨1500, 2, some 1, [0], ⟨none, none, [], none, none⟩⟩ :
        StateV2).sel ∧ (0 : Nat) = 0) :=
  ⟨(c6_rejection_no_mutation (some "k") false ⟨0, 0⟩
      ⟨none, none, [], none, none⟩ 5000 12 77 13 77).1
    FetchOutcome.rejectedTooSoon ⟨0, 0⟩ ⟨none, none, [], none, none⟩ 0
    (by decide) (Or.inl rfl),
   (c6_rejection_no_mutation (some "k") false ⟨0, 0⟩
      ⟨none, none, [], none, none⟩ 5000 12 77 13 77).2
    ⟨1500, 2, some 1, [0], ⟨none, none, [], none, none⟩⟩
    FetchOutcome.rejectedQuotaExceeded
    ⟨1500, 2, some 1, [1, 0], ⟨none, none, [], none, none⟩⟩ 0
    (by simp only [fetchRouteFromPointsV2, abortPrevious, safety_limit_eq]
        decide) rfl⟩

/-- Claim C7: for every non-empty input polyline, the densification output
has length 2n-1, keeps the first and last points, places every input point
at the even output indices in order, and places at every odd output index
the exact midpoint (componentwise arithmetic mean) of its two neighbouring
output points. -/
theorem c7_densification (p : Coordinate) (rest : List Coordinate) :
    (smoothCoords (p :: rest)).length = 2 * (p :: rest).length - 1 ∧
    (smoothCoords (p :: rest)).head? = (p :: rest).head? ∧
    (smoothCoords (p :: rest)).getLast? = (p :: rest).getLast? ∧
    (∀ i : Nat,
      (smoothCoords (p :: rest)).get? (2 * i) = (p :: rest).get? i) ∧
    (∀ (i : Nat) (a b : Coordinate),
      (smoothCoords (p :: rest)).get? (2 * i) = some a →
      (smoothCoords (p :: rest)).get? (2 * i + 2) = some b →
      (smoothCoords (p :: rest)).get? (2 * i + 1) = some (midpoint a b)) := by
  have hsc : smoothCoords (p :: rest) = p :: smoothTail p rest := rfl
  refine ⟨?_, rfl, ?_, ?_, ?_⟩
  · rw [hsc]
    simp only [List.length_cons, smoothTail_length rest p]
    omega
  · rw [hsc]
    exact smooth_getLast rest p
  · intro i
    rw [hsc]
    exact smooth_get_even rest p i
  · intro i a b hga hgb
    rw [hsc] at hga hgb ⊢
    have ha' : (p :: rest).get? i = some a := by
      rw [← smooth_get_even rest p i]
      exact hga
    have hb' : (p :: rest).get? (i + 1) = some b := by
      rw [← smooth_get_even rest p (i + 1)]
      have h2 : 2 * (i + 1) = 2 * i + 2 := by omega
      rw [h2]
      exact hgb
    exact smooth_get_odd rest p i a b ha' hb'

/-- Claim C7 witness: the densification theorem applied to the two-point
polyline [(0,0), (2,4)], including the midpoint at output index 1. -/
theorem c7_witness :
    (smoothCoords [⟨0, 0⟩, ⟨2, 4⟩]).length =
      2 * ([⟨0, 0⟩, ⟨2, 4⟩] : List Coordinate).length - 1 ∧
    (smoothCoords [⟨0, 0⟩, ⟨2, 4⟩]).get? 1 =
      some (midpoint ⟨0, 0⟩ ⟨2, 4⟩) :=
  ⟨(c7_densification ⟨0, 0⟩ [⟨2, 4⟩]).1,
   (c7_densification ⟨0, 0⟩ [⟨2, 4⟩]).2.2.2.2 0 ⟨0, 0⟩ ⟨2, 4⟩ rfl rfl⟩

/-- Claim C10: in the cancellation variant, every call that passes the
credential check aborts the previously in-flight controller before the
quota check runs; in particular a call rejected by the quota guard has
already aborted the prior fetch, so cancellation is not conditional on
admission. -/
theorem c10_abort_before_quota (apiKey : Option String) (g : Bool)
    (s : StateV2) (a b c d : ℚ) (t : Nat)
    (hk : keyMissing apiKey = false) (hc : s.currentToken = some t) :
    t ∈ (fetchRouteFromPointsV2 apiKey g s a b c d).2.1.abortedTokens ∧
    (SAFETY_LIMIT ≤ s.requestCount →
      (fetchRouteFromPointsV2 apiKey false s a b c d).1 =
        FetchOutcome.rejectedQuotaExceeded ∧
      t ∈ (fetchRouteFromPointsV2 apiKey false s a b c d).2.1.abortedTokens) := by
  refine ⟨fetchV2_aborts_prior apiKey g s a b c d t hk hc, fun hq => ?_⟩
  exact ⟨(fetchV2_over_quota apiKey s a b c d hk hq).1,
    fetchV2_aborts_prior apiKey false s a b c d t hk hc⟩

/-- Claim C10 witness: a concrete quota-rejected call has nevertheless
aborted the prior in-flight token 0. -/
theorem c10_witness :
    0 ∈ (fetchRouteFromPointsV2 (some "k") false
      ⟨1500, 1, some 0, [], ⟨none, none, [], none, none⟩⟩
      12 77 13 77).2.1.abortedTokens ∧
    (fetchRouteFromPointsV2 (some "k") false
      ⟨1500, 1, some 0, [], ⟨none, none, [], none, none⟩⟩ 12 77 13 77).1 =
      FetchOutcome.rejectedQuotaExceeded ∧
    0 ∈ (fetchRouteFromPointsV2 (some "k") false
      ⟨1500, 1, some 0, [], ⟨none, none, [], none, none⟩⟩
      12 77 13 77).2.1.abortedTokens :=
  ⟨(c10_abort_before_quota (some "k") false
      ⟨1500, 1, some 0, [], ⟨none, none, [], none, none⟩⟩ 12 77 13 77 0
      rfl rfl).1,
   (c10_abort_before_quota (some "k") false
      ⟨1500, 1, some 0, [], ⟨none, none, [], none, none⟩⟩ 12 77 13 77 0
      rfl rfl).2 (by simp [safety_limit_eq])⟩

end RescueMind
